import Mathlib

/-!
Verification development for the terraform documenter repository.

The Lean definitions below are a shallow embedding of the Python sources
`utils.py` (the taxonomy table `RESOURCE_MAP`), `terraform_parser.py`
(`parse_terraform_directory`), `diagram_generator.py`
(`create_conceptual_diagram`, `create_networking_diagram`) and
`docx_generator.py` (`DocxGenerator._generate_summary_points`).

Modelling conventions:
* A Terraform file is represented after the external `hcl2.load` step: the
  embedding receives the list of successfully parsed file dictionaries (the
  directory walk, file IO and the per-file `try/except` that skips unreadable
  files are outside the embedded core, as in the specification).
* Python dictionaries whose key sets are dynamic are represented either as
  association lists (when iteration order matters) or as functions into
  `Option` (when only key membership and the stored value matter).
* HCL scalar values are represented by `TVal`; resource `config` values are
  represented by `CVal` (a string or a nested object), always wrapped in a
  list, mirroring the single-element-list quirk of the source format.
* `xs[0]` on a list that the source format guarantees to be non-empty is
  modelled with `headD`; on an empty list Python would raise an exception
  that the enclosing `try/except` of the diagram code turns into a
  placeholder, a path no claim exercises.
* Diagram drawing is side-effecting in Python; the embedding records the
  nodes, clusters and edges that the drawing calls would create, in creation
  order.
-/

/-- HCL scalar/list value, as produced by the external `hcl2` parser for
variable and module blocks. -/
inductive TVal where
  | s : String → TVal
  | i : Int → TVal
  | b : Bool → TVal
  | l : List TVal → TVal

/-- Value stored in a resource `config` mapping: a string or a nested
object (used by the GCP `network_interface` blocks). -/
inductive CVal where
  | str : String → CVal
  | obj : List (String × CVal) → CVal

/-- A resource `config`: field name to list-wrapped values (the source
format wraps every top-level value in a single-element list). -/
def Config := List (String × List CVal)

/-- One classified resource record as stored by `parse_terraform_directory`:
`{"type": res_type, "name": res_name, "config": res_details}`. -/
structure Res where
  type : String
  name : String
  config : Config

/-- One extracted variable record: `{"name": ..., "description": ..., "default": ...}`. -/
structure Variable where
  name : String
  description : TVal
  default : TVal

/-- One extracted module record: `{"name": ..., "source": ...}` (named
`TFModule` because `Module` is taken by Mathlib). -/
structure TFModule where
  name : String
  source : TVal

/-- The `var_details` dictionary of a `variable` block, restricted to the
keys the parser reads (`description`, `default`). -/
structure VarDetails where
  description : List TVal
  default : Option TVal

/-- The `mod_details` dictionary of a `module` block, restricted to the key
the parser reads (`source`). -/
structure ModDetails where
  source : Option (List TVal)

/-- One parsed `.tf` file, as returned by `hcl2.load`: the `resource`,
`variable` and `module` entries, each a list of blocks, each block an
association of names to details (Python `dict.items()` order preserved). -/
structure TFFile where
  resourceBlocks : List (List (String × List (String × Config)))
  variableBlocks : List (List (String × VarDetails))
  moduleBlocks : List (List (String × ModDetails))

/-- Whether the character list `n` occurs at the start of `h`. -/
def isSubAt : List Char → List Char → Bool
  | [], _ => true
  | _ :: _, [] => false
  | c :: cs, d :: ds => c = d && isSubAt cs ds

/-- Whether the character list `n` occurs contiguously anywhere in `h`. -/
def containsSub : List Char → List Char → Bool
  | n, [] => n.isEmpty
  | n, h :: hs => isSubAt n (h :: hs) || containsSub n hs

/-- Python's substring test `needle in hay` on strings. -/
def pyIn (needle hay : String) : Bool :=
  containsSub needle.data hay.data

/-- Python's `.lower()`: the character-wise lowering (extensionally
`String.toLower`, stated over the character list so that it evaluates in
the kernel). -/
def pyLower (s : String) : String := String.mk (s.data.map Char.toLower)

/-- Python's `.upper()`, stated like `pyLower`. -/
def pyUpper (s : String) : String := String.mk (s.data.map Char.toUpper)

/-- `CVal` coerced to a string; a nested object in a position where the
Python code uses the value as a string would raise (and be turned into a
placeholder diagram by the enclosing handler), a path no claim exercises. -/
def cvalStr : CVal → String
  | CVal.str s => s
  | CVal.obj _ => ""

/-- Python's `r.get("config", {}).get(key, [""])[0]` read of a resource
config field as a string. -/
def cfgStr (r : Res) (key : String) : String :=
  cvalStr (((r.config.lookup key).getD [CVal.str ""]).headD (CVal.str ""))

/-- The `"aws"` entry of `RESOURCE_MAP` in `utils.py`. -/
def awsResourceMap : List (String × List String) := [
  ("vpcs", ["aws_vpc"]),
  ("subnets", ["aws_subnet"]),
  ("route_tables", ["aws_route_table", "aws_route"]),
  ("internet_gateways", ["aws_internet_gateway"]),
  ("nat_gateways", ["aws_nat_gateway"]),
  ("vpn_gateways", ["aws_vpn_gateway"]),
  ("peering_connections", ["aws_vpc_peering_connection"]),
  ("endpoints", ["aws_vpc_endpoint"]),
  ("alb", ["aws_lb", "aws_alb"]),
  ("nlb", ["aws_network_load_balancer"]),
  ("target_groups", ["aws_lb_target_group", "aws_alb_target_group"]),
  ("listeners", ["aws_lb_listener", "aws_alb_listener"]),
  ("route53", ["aws_route53_zone", "aws_route53_record"]),
  ("cloudfront", ["aws_cloudfront_distribution"]),
  ("apigateway", ["aws_api_gateway_rest_api", "aws_api_gateway_v2_api"]),
  ("transit_gateways", ["aws_transit_gateway"]),
  ("instances", ["aws_instance"]),
  ("asg", ["aws_autoscaling_group"]),
  ("launch_templates", ["aws_launch_template"]),
  ("eks", ["aws_eks_cluster", "aws_eks_node_group", "aws_eks_fargate_profile"]),
  ("ecs", ["aws_ecs_cluster", "aws_ecs_service", "aws_ecs_task_definition"]),
  ("ecr", ["aws_ecr_repository"]),
  ("lambda", ["aws_lambda_function"]),
  ("sqs", ["aws_sqs_queue"]),
  ("sns", ["aws_sns_topic"]),
  ("eventbridge", ["aws_cloudwatch_event_rule", "aws_cloudwatch_event_target"]),
  ("s3", ["aws_s3_bucket", "aws_s3_bucket_policy"]),
  ("ebs", ["aws_ebs_volume"]),
  ("efs", ["aws_efs_file_system"]),
  ("glacier", ["aws_glacier_vault"]),
  ("rds", ["aws_db_instance", "aws_db_subnet_group"]),
  ("aurora", ["aws_rds_cluster"]),
  ("dynamodb", ["aws_dynamodb_table"]),
  ("elasticache", ["aws_elasticache_cluster", "aws_elasticache_subnet_group"]),
  ("neptune", ["aws_neptune_cluster"]),
  ("documentdb", ["aws_docdb_cluster"]),
  ("iam_roles", ["aws_iam_role"]),
  ("iam_policies", ["aws_iam_policy", "aws_iam_role_policy_attachment"]),
  ("iam_users", ["aws_iam_user"]),
  ("security_groups", ["aws_security_group", "aws_security_group_rule"]),
  ("nacl", ["aws_network_acl", "aws_network_acl_rule"]),
  ("kms", ["aws_kms_key"]),
  ("acm", ["aws_acm_certificate"]),
  ("secretsmanager", ["aws_secretsmanager_secret"]),
  ("waf", ["aws_wafv2_web_acl"]),
  ("redshift", ["aws_redshift_cluster"]),
  ("emr", ["aws_emr_cluster"]),
  ("glue", ["aws_glue_catalog_database", "aws_glue_job"]),
  ("kinesis", ["aws_kinesis_stream"]),
  ("athena", ["aws_athena_database", "aws_athena_workgroup"]),
  ("cloudwatch", ["aws_cloudwatch_metric_alarm", "aws_cloudwatch_dashboard"]),
  ("cloudtrail", ["aws_cloudtrail"]),
  ("config", ["aws_config_config_rule"])]

/-- The `"azurerm"` entry of `RESOURCE_MAP` in `utils.py`. -/
def azurermResourceMap : List (String × List String) := [
  ("vnets", ["azurerm_virtual_network"]),
  ("subnets", ["azurerm_subnet"]),
  ("route_tables", ["azurerm_route_table"]),
  ("nat_gateways", ["azurerm_nat_gateway"]),
  ("vpn_gateways", ["azurerm_virtual_network_gateway"]),
  ("app_gateway", ["azurerm_application_gateway"]),
  ("load_balancer", ["azurerm_lb", "azurerm_lb_backend_address_pool"]),
  ("dns", ["azurerm_dns_zone", "azurerm_private_dns_zone"]),
  ("firewall", ["azurerm_firewall"]),
  ("public_ip", ["azurerm_public_ip"]),
  ("network_interfaces", ["azurerm_network_interface"]),
  ("vms", ["azurerm_virtual_machine", "azurerm_linux_virtual_machine", "azurerm_windows_virtual_machine"]),
  ("vmss", ["azurerm_virtual_machine_scale_set"]),
  ("aks", ["azurerm_kubernetes_cluster"]),
  ("acr", ["azurerm_container_registry"]),
  ("aci", ["azurerm_container_group"]),
  ("functions", ["azurerm_function_app", "azurerm_windows_function_app", "azurerm_linux_function_app"]),
  ("eventgrid", ["azurerm_eventgrid_topic"]),
  ("servicebus", ["azurerm_servicebus_namespace"]),
  ("logic_apps", ["azurerm_logic_app_workflow"]),
  ("storage_accounts", ["azurerm_storage_account"]),
  ("storage_containers", ["azurerm_storage_container"]),
  ("managed_disks", ["azurerm_managed_disk"]),
  ("sql_db", ["azurerm_sql_database", "azurerm_mssql_database"]),
  ("sql_server", ["azurerm_sql_server", "azurerm_mssql_server"]),
  ("cosmosdb", ["azurerm_cosmosdb_account"]),
  ("redis", ["azurerm_redis_cache"]),
  ("postgresql", ["azurerm_postgresql_server"]),
  ("mysql", ["azurerm_mysql_server"]),
  ("key_vault", ["azurerm_key_vault", "azurerm_key_vault_secret"]),
  ("nsgs", ["azurerm_network_security_group", "azurerm_network_security_rule"]),
  ("managed_identity", ["azurerm_user_assigned_identity"]),
  ("monitor", ["azurerm_monitor_metric_alert", "azurerm_log_analytics_workspace"]),
  ("machine_learning", ["azurerm_machine_learning_workspace"]),
  ("cognitive_services", ["azurerm_cognitive_account"])]

/-- The `"google"` entry of `RESOURCE_MAP` in `utils.py`. -/
def googleResourceMap : List (String × List String) := [
  ("networks", ["google_compute_network"]),
  ("subnets", ["google_compute_subnetwork"]),
  ("routes", ["google_compute_route"]),
  ("routers", ["google_compute_router"]),
  ("nat", ["google_compute_router_nat"]),
  ("vpn", ["google_compute_vpn_gateway"]),
  ("firewall", ["google_compute_firewall"]),
  ("load_balancing", ["google_compute_forwarding_rule", "google_compute_global_forwarding_rule", "google_compute_backend_service"]),
  ("dns", ["google_dns_managed_zone", "google_dns_record_set"]),
  ("cloud_armor", ["google_compute_security_policy"]),
  ("instances", ["google_compute_instance", "google_workbench_instance"]),
  ("instance_groups", ["google_compute_instance_group_manager"]),
  ("instance_templates", ["google_compute_instance_template"]),
  ("gke", ["google_container_cluster", "google_container_node_pool"]),
  ("artifact_registry", ["google_artifact_registry_repository"]),
  ("functions", ["google_cloudfunctions_function", "google_cloudfunctions2_function"]),
  ("cloud_run", ["google_cloud_run_v2_service"]),
  ("pubsub", ["google_pubsub_topic", "google_pubsub_subscription"]),
  ("workflows", ["google_workflows_workflow"]),
  ("storage_buckets", ["google_storage_bucket", "google_storage_bucket_iam_binding"]),
  ("disks", ["google_compute_disk"]),
  ("filestore", ["google_filestore_instance"]),
  ("sql", ["google_sql_database_instance"]),
  ("spanner", ["google_spanner_instance"]),
  ("bigtable", ["google_bigtable_instance"]),
  ("firestore", ["google_firestore_database", "google_firestore_document"]),
  ("memorystore", ["google_redis_instance"]),
  ("iam_roles", ["google_service_account", "google_project_iam_binding", "google_project_iam_member"]),
  ("kms", ["google_kms_key_ring", "google_kms_crypto_key"]),
  ("secret_manager", ["google_secret_manager_secret", "google_secret_manager_secret_version"]),
  ("bigquery", ["google_bigquery_dataset", "google_bigquery_table"]),
  ("dataproc", ["google_dataproc_cluster"]),
  ("dataflow", ["google_dataflow_job"]),
  ("composer", ["google_composer_environment"]),
  ("vertex_ai", ["google_vertex_ai_dataset", "google_vertex_ai_endpoint"]),
  ("notebooks", ["google_notebooks_instance"])]

/-- `RESOURCE_MAP` from `utils.py`: provider name to its category table. -/
def RESOURCE_MAP : List (String × List (String × List String)) := [
  ("aws", awsResourceMap),
  ("azurerm", azurermResourceMap),
  ("google", googleResourceMap)]

/-- The reverse lookup `declaredType → Category` built at the top of
`parse_terraform_directory` (`reverse_resource_map[res_type] = category`
inside the nested loop; a later write to the same type wins, as for a
Python dict). -/
def buildRev (pm : List (String × List String)) : String → Option String :=
  pm.foldl
    (fun acc e => e.2.foldl (fun a t => fun s => if s = t then some e.1 else a s) acc)
    (fun _ => none)

/-- The category initialisation performed in the same nested loop
(`parsed_data["resources"][category] = []`, once per `res_type` of the
category; `none` models an absent key of the Python dict). -/
def buildInit (pm : List (String × List String)) : String → Option (List Res) :=
  pm.foldl
    (fun acc e => e.2.foldl (fun a _t => fun c => if c = e.1 then some ([] : List Res) else a c) acc)
    (fun _ => none)

/-- One step of resource classification: look the declared type up in the
reverse map and, when a category is found (Python truthiness: present and
non-empty), append the record to that category's list. -/
def stepRes (rev : String → Option String) (m : String → Option (List Res)) (r : Res) :
    String → Option (List Res) :=
  match rev r.type with
  | some cat =>
      if cat.isEmpty then m
      else fun c => if c = cat then (m c).map (· ++ [r]) else m c
  | none => m

/-- The resource records contributed by one parsed file, in the order of the
nested loops of `parse_terraform_directory` (`resource` blocks, then
`res_type` entries, then `res_name` entries). -/
def fileResources (f : TFFile) : List Res :=
  (f.resourceBlocks.map
    (fun blk => (blk.map (fun tc => tc.2.map (fun nc => (⟨tc.1, nc.1, nc.2⟩ : Res)))).flatten)).flatten

/-- The variable-record extraction of `parse_terraform_directory` for one
`var_name`/`var_details` pair (`description` default handling and the
corrected non-subscriptable `default` handling). -/
def extractVariable (name : String) (d : VarDetails) : Variable :=
  { name := name
    description := d.description.headD (TVal.s "N/A")
    default :=
      match d.default with
      | some (TVal.l xs) => xs.headD (TVal.s "N/A")
      | some v => v
      | none => TVal.s "N/A" }

/-- The variable records contributed by one parsed file, in loop order. -/
def fileVariables (f : TFFile) : List Variable :=
  (f.variableBlocks.map (fun blk => blk.map (fun nd => extractVariable nd.1 nd.2))).flatten

/-- The module-record extraction (`mod_details.get('source', ['N/A'])[0]`). -/
def extractModule (name : String) (d : ModDetails) : TFModule :=
  { name := name
    source := ((d.source).getD [TVal.s "N/A"]).headD (TVal.s "N/A") }

/-- The module records contributed by one parsed file, in loop order. -/
def fileModules (f : TFFile) : List TFModule :=
  (f.moduleBlocks.map (fun blk => blk.map (fun nd => extractModule nd.1 nd.2))).flatten

/-- The `parsed_data` dictionary returned by `parse_terraform_directory`. -/
structure ParsedData where
  resources : String → Option (List Res)
  vars : List Variable
  mods : List TFModule

/-- The effect of processing one parsed file on `parsed_data`: classify its
resource records in order, then append its variable and module records. -/
def parseStep (rev : String → Option String) (acc : ParsedData) (f : TFFile) : ParsedData :=
  ⟨(fileResources f).foldl (stepRes rev) acc.resources,
    acc.vars ++ fileVariables f,
    acc.mods ++ fileModules f⟩

/-- `parse_terraform_directory` from `terraform_parser.py`, over the list of
successfully parsed `.tf` files in discovery order.  The single Python loop
that builds `reverse_resource_map` and seeds `parsed_data["resources"]` is
split into `buildRev`/`buildInit` (same iteration, two results), and the
nested per-file resource loops are flattened into a fold over
`fileResources` (same records, same order, same per-record category
check). -/
def parse_terraform_directory (files : List TFFile) (provider : String) : ParsedData :=
  let pm := (RESOURCE_MAP.lookup provider).getD []
  files.foldl (parseStep (buildRev pm)) ⟨buildInit pm, [], []⟩

/-- All resource records of an input, in file-discovery order. -/
def flattenRaw (files : List TFFile) : List Res :=
  (files.map fileResources).flatten

/-- Whether classification sends the record `r` to category `c`: its
declared type resolves to `c` in the reverse map (and the category name is
truthy, which every taxonomy category is). -/
def matchesCat (rev : String → Option String) (c : String) (r : Res) : Bool :=
  match rev r.type with
  | some cat => !cat.isEmpty && cat = c
  | none => false

/-- Identity of a drawn diagram node: the construction site (one per node
list in the source) and the position in that list.  Distinct Python node
objects get distinct references even when their labels coincide. -/
structure NodeRef where
  group : String
  idx : Nat
deriving DecidableEq

/-- References for the nodes of one construction site. -/
def refs (g : String) (n : Nat) : List NodeRef :=
  (List.range n).map (fun i => ⟨g, i⟩)

/-- Edges drawn by `src >> targets` in the diagrams library: one edge from
the single source node to every target node (none when either side is
absent). -/
def fanout (s : Option NodeRef) (ts : List NodeRef) : List (NodeRef × NodeRef) :=
  match s with
  | some s0 => ts.map (fun t => (s0, t))
  | none => []

/-- Label of an S3 node:
`b.get("config", {}).get("bucket", [b.get("name")])[0]`. -/
def s3Label (b : Res) : String :=
  cvalStr (((b.config.lookup "bucket").getD [CVal.str b.name]).headD (CVal.str b.name))

/-- Nodes of the AWS conceptual diagram in creation order, as
(construction site, label) pairs. -/
def awsConceptualNodes (res : String → List Res) : List (String × String) :=
  ((res "alb" ++ res "nlb").map (fun lb => ("lb", lb.name))) ++
  ((res "cloudfront").map (fun cf => ("cloudfront", cf.name))) ++
  ((res "route53").map (fun r => ("route53", r.name))) ++
  ((res "instances").map (fun i => ("instances", i.name))) ++
  ((res "eks").map (fun c => ("eks", c.name))) ++
  ((res "lambda").map (fun f => ("lambda", f.name))) ++
  ((res "apigateway").map (fun g => ("apigateway", g.name))) ++
  ((res "rds").map (fun d => ("rds", d.name))) ++
  ((res "dynamodb").map (fun t => ("dynamodb", t.name))) ++
  ((res "elasticache").map (fun c => ("elasticache", c.name))) ++
  ((res "s3").map (fun b => ("s3", s3Label b))) ++
  ((res "efs").map (fun f => ("efs", f.name))) ++
  ((res "acm").map (fun a => ("acm", a.name))) ++
  ((res "iam_roles").map (fun r => ("iam", r.name))) ++
  ((res "sqs").map (fun q => ("sqs", q.name)))

/-- References of `compute_nodes = instance_nodes + eks_nodes`. -/
def awsComputeRefs (res : String → List Res) : List NodeRef :=
  refs "instances" (res "instances").length ++ refs "eks" (res "eks").length

/-- References of
`database_nodes = db_nodes + dynamodb_nodes + elasticache_nodes`. -/
def awsDbRefs (res : String → List Res) : List NodeRef :=
  refs "rds" (res "rds").length ++ refs "dynamodb" (res "dynamodb").length ++
    refs "elasticache" (res "elasticache").length

/-- References of `lambda_nodes`. -/
def awsLambdaRefs (res : String → List Res) : List NodeRef :=
  refs "lambda" (res "lambda").length

/-- The AWS conceptual connections drawn before the compute-to-database
edge, in source order (route53, cloudfront, acm, load balancer and API
gateway blocks). -/
def awsPreEdges (res : String → List Res) : List (NodeRef × NodeRef) :=
  let lb := refs "lb" (res "alb" ++ res "nlb").length
  let cf := refs "cloudfront" (res "cloudfront").length
  let r53 := refs "route53" (res "route53").length
  let inst := refs "instances" (res "instances").length
  let eks := refs "eks" (res "eks").length
  let apigw := refs "apigateway" (res "apigateway").length
  let s3 := refs "s3" (res "s3").length
  let acm := refs "acm" (res "acm").length
  (match r53.head? with
   | some r =>
       if !cf.isEmpty then cf.map (fun t => (r, t))
       else if !lb.isEmpty then lb.map (fun t => (r, t))
       else []
   | none => []) ++
  fanout cf.head? lb ++ fanout cf.head? s3 ++
  fanout acm.head? cf ++ fanout acm.head? lb ++
  fanout lb.head? inst ++ fanout lb.head? eks ++
  fanout apigw.head? (awsLambdaRefs res)

/-- The AWS conceptual connections drawn between the compute-to-database
edge and the lambda-to-database edge (compute to S3 and compute to EFS). -/
def awsMidEdges (res : String → List Res) : List (NodeRef × NodeRef) :=
  fanout (awsComputeRefs res).head? (refs "s3" (res "s3").length) ++
  fanout (awsComputeRefs res).head? (refs "efs" (res "efs").length)

/-- All connections of the AWS conceptual diagram, in drawing order. -/
def awsConceptualEdges (res : String → List Res) : List (NodeRef × NodeRef) :=
  awsPreEdges res ++
  fanout (awsComputeRefs res).head? (awsDbRefs res) ++
  awsMidEdges res ++
  fanout (awsLambdaRefs res).head? (awsDbRefs res)

/-- Nodes of the GCP conceptual diagram in creation order. -/
def googleConceptualNodes (res : String → List Res) : List (String × String) :=
  ((res "dns").map (fun z => ("dns", z.name))) ++
  ((res "load_balancing").map (fun lb => ("lb", lb.name))) ++
  ((res "instances").map (fun i => ("instances", i.name))) ++
  ((res "gke").map (fun g => ("gke", g.name))) ++
  ((res "functions").map (fun f => ("functions", f.name))) ++
  ((res "sql").map (fun d => ("sql", d.name))) ++
  ((res "firestore").map (fun d => ("firestore", d.name))) ++
  ((res "memorystore").map (fun r => ("memorystore", r.name))) ++
  ((res "storage_buckets").map (fun b => ("buckets", b.name))) ++
  ((res "iam_roles").map (fun r => ("iam", r.name)))

/-- All connections of the GCP conceptual diagram, in drawing order. -/
def googleConceptualEdges (res : String → List Res) : List (NodeRef × NodeRef) :=
  let dns := refs "dns" (res "dns").length
  let lb := refs "lb" (res "load_balancing").length
  let compute := refs "instances" (res "instances").length ++
    refs "gke" (res "gke").length ++ refs "functions" (res "functions").length
  let db := refs "sql" (res "sql").length ++ refs "firestore" (res "firestore").length ++
    refs "memorystore" (res "memorystore").length
  let buckets := refs "buckets" (res "storage_buckets").length
  fanout dns.head? lb ++ fanout lb.head? compute ++
  fanout compute.head? db ++ fanout compute.head? buckets

/-- Result of `create_conceptual_diagram`: either a drawn body (nodes and
edges) or the single placeholder `Blank` node. -/
structure ConceptualDiagram where
  placeholder : Option String
  nodes : List (String × String)
  edges : List (NodeRef × NodeRef)

/-- `create_conceptual_diagram` from `diagram_generator.py` (the `except`
fallback that replaces a crashed drawing with an error placeholder is
unreachable in this pure model). -/
def create_conceptual_diagram (data : ParsedData) (provider : String) : ConceptualDiagram :=
  let res := fun c => (data.resources c).getD []
  if provider = "aws" then ⟨none, awsConceptualNodes res, awsConceptualEdges res⟩
  else if provider = "google" then ⟨none, googleConceptualNodes res, googleConceptualEdges res⟩
  else ⟨some ("Diagrams for " ++ pyUpper provider ++ " not implemented."), [], []⟩

/-- Node identity for the structural edges of the AWS networking diagram.
Exactly one internet-gateway node is created per run, so carrying the label
is a faithful identity here. -/
inductive NetNode where
  | igw : String → NetNode
  | routeTable : String → NetNode
  | natGw : String → NetNode
deriving DecidableEq

/-- One rendered `Subnet: ...` cluster: the EC2 nodes placed inside it and
the NAT-gateway node placed inside it (public subnets only). -/
structure SubnetCluster where
  name : String
  ec2 : List String
  natNode : Option String
deriving DecidableEq

/-- One rendered `VPC: ...` cluster of the AWS networking diagram.
`natNode` is the value of the Python local `nat_node` after the public
subnet loop (the last NAT found), used for the structural edges. -/
structure VpcClusterM where
  name : String
  naclNode : Option String
  publicRt : Option String
  privateRt : Option String
  publicSubnets : List SubnetCluster
  privateSubnets : List SubnetCluster
  natNode : Option String
deriving DecidableEq

/-- The EC2 instances placed in the subnet cluster named `subnetName`:
`[EC2(i['name']) for i in instances if subnet_data['name'] in i.get("config", {}).get("subnet_id", [""])[0]]`. -/
def placeInstances (instances : List Res) (subnetName : String) : List String :=
  (instances.filter (fun i => pyIn subnetName (cfgStr i "subnet_id"))).map (·.name)

/-- `next((nat for nat in nats if subnet_data['name'] in nat...subnet_id...), None)`. -/
def findNat (nats : List Res) (subnetName : String) : Option Res :=
  nats.find? (fun nat => pyIn subnetName (cfgStr nat "subnet_id"))

/-- The cluster rendered for one public subnet. -/
def mkPublicSubnetCluster (instances nats : List Res) (s : Res) : SubnetCluster :=
  ⟨s.name, placeInstances instances s.name, (findNat nats s.name).map (·.name)⟩

/-- The cluster rendered for one private subnet (no NAT placement). -/
def mkPrivateSubnetCluster (instances : List Res) (s : Res) : SubnetCluster :=
  ⟨s.name, placeInstances instances s.name, none⟩

/-- The body of the per-VPC loop of the AWS networking diagram: resources
of this VPC, first public/private route table, NACL node, tiered subnet
clusters, and the final value of `nat_node`.  The single Python loop over
public subnets both renders the clusters and updates `nat_node`; the
cluster contents do not depend on `nat_node`, so it is split here into a
map (the clusters) and a fold (the last NAT found). -/
def buildVpc (subnets route_tables nacls instances nats : List Res) (vpcName : String) :
    VpcClusterM :=
  let vpc_subnets := subnets.filter (fun s => pyIn vpcName (cfgStr s "vpc_id"))
  let vpc_rts := route_tables.filter (fun rt => pyIn vpcName (cfgStr rt "vpc_id"))
  let vpc_nacls := nacls.filter (fun n => pyIn vpcName (cfgStr n "vpc_id"))
  let public_rt_data := vpc_rts.find? (fun rt => pyIn "public" (pyLower rt.name))
  let private_rt_data := vpc_rts.find? (fun rt => pyIn "private" (pyLower rt.name))
  let pubList := vpc_subnets.filter (fun s => pyIn "public" (pyLower s.name))
  let privList := vpc_subnets.filter (fun s => pyIn "private" (pyLower s.name))
  ⟨vpcName,
    vpc_nacls.head?.map (·.name),
    public_rt_data.map (·.name),
    private_rt_data.map (·.name),
    pubList.map (mkPublicSubnetCluster instances nats),
    privList.map (mkPrivateSubnetCluster instances),
    pubList.foldl
      (fun acc s => match findNat nats s.name with
        | some nd => some nd.name
        | none => acc)
      none⟩

/-- The three structural edges drawn at the end of one VPC cluster, each
only when both endpoints exist. -/
def clusterEdges (igwName : Option String) (vc : VpcClusterM) : List (NetNode × NetNode) :=
  (match igwName, vc.publicRt with
   | some g, some rt => [(NetNode.igw g, NetNode.routeTable rt)]
   | _, _ => []) ++
  (match vc.privateRt, vc.natNode with
   | some rt, some n => [(NetNode.routeTable rt, NetNode.natGw n)]
   | _, _ => []) ++
  (match vc.natNode, igwName with
   | some n, some g => [(NetNode.natGw n, NetNode.igw g)]
   | _, _ => [])

/-- One rendered GCP subnet cluster. -/
structure GcpSubnetCluster where
  name : String
  instanceNodes : List String
  gkeNodes : List String
deriving DecidableEq

/-- One rendered GCP `VPC: ...` cluster. -/
structure GcpVpcCluster where
  name : String
  routerNodes : List String
  natNodes : List String
  vpnNodes : List String
  routerNatEdges : List (String × String)
  routerVpnEdges : List (String × String)
  subnets : List GcpSubnetCluster
deriving DecidableEq

/-- `i.get("config",{}).get("network_interface",[{}])[0].get("subnetwork","")`. -/
def instSubnetwork (i : Res) : String :=
  match ((i.config.lookup "network_interface").getD [CVal.obj []]).headD (CVal.obj []) with
  | CVal.obj d =>
      match d.lookup "subnetwork" with
      | some (CVal.str s) => s
      | some (CVal.obj _) => ""
      | none => ""
  | CVal.str _ => ""

/-- The body of the per-network loop of the GCP networking diagram. -/
def buildGcpVpc (routers nats vpns subnets instances gkes : List Res)
    (networkName : String) : GcpVpcCluster :=
  let routerNodes :=
    (routers.filter (fun r => (cfgStr r "network").endsWith networkName)).map (·.name)
  let natNodes := if routerNodes.isEmpty then [] else nats.map (·.name)
  let vpnNodes := if routerNodes.isEmpty then [] else vpns.map (·.name)
  let natEdges := match routerNodes.head? with
    | some r0 => natNodes.map (fun n => (r0, n))
    | none => []
  let vpnEdges := match routerNodes.head? with
    | some r0 => vpnNodes.map (fun n => (r0, n))
    | none => []
  let networkSubnets := subnets.filter (fun s => (cfgStr s "network").endsWith networkName)
  ⟨networkName, routerNodes, natNodes, vpnNodes, natEdges, vpnEdges,
    networkSubnets.map (fun s =>
      ⟨s.name,
        (instances.filter (fun i => (instSubnetwork i).endsWith s.name)).map (·.name),
        (gkes.filter (fun g =>
          (cfgStr g "network").endsWith networkName &&
            (cfgStr g "subnetwork").endsWith s.name)).map (·.name)⟩)⟩

/-- Result of `create_networking_diagram`: the placeholder label (non-AWS,
non-GCP provider), the no-network label, or the rendered AWS/GCP body. -/
structure NetDiagram where
  placeholder : Option String
  noVpcLabel : Option String
  igwNode : Option String
  vpcClusters : List VpcClusterM
  netEdges : List (NetNode × NetNode)
  gcpFirewallNodes : List String
  gcpVpcClusters : List GcpVpcCluster
  gcpFinalEdge : Option (String × String)

/-- The AWS branch of `create_networking_diagram`: one internet-gateway
node built from the first `internet_gateways` entry (or none), one cluster
per VPC, and the per-VPC structural edges in VPC order. -/
def awsNetworkDiagram (res : String → List Res) : NetDiagram :=
  let vpcs := res "vpcs"
  if vpcs.isEmpty then ⟨none, some "No VPC found.", none, [], [], [], [], none⟩
  else
    let igwName := (res "internet_gateways").head?.map (·.name)
    let clusters := vpcs.map (fun v =>
      buildVpc (res "subnets") (res "route_tables") (res "nacl") (res "instances")
        (res "nat_gateways") v.name)
    ⟨none, none, igwName, clusters, (clusters.map (clusterEdges igwName)).flatten,
      [], [], none⟩

/-- The GCP branch of `create_networking_diagram`.  The final
`firewall_nodes[0] >> VPC(networks[0]...)` draws a fresh VPC node; the edge
is recorded as the pair of labels. -/
def gcpNetworkDiagram (res : String → List Res) : NetDiagram :=
  let networks := res "networks"
  if networks.isEmpty then ⟨none, some "No VPC/Network found.", none, [], [], [], [], none⟩
  else
    let firewallNodes := (res "firewall").map (·.name)
    let clusters := networks.map (fun n =>
      buildGcpVpc (res "routers") (res "nat") (res "vpn") (res "subnets")
        (res "instances") (res "gke") n.name)
    let finalEdge := match firewallNodes.head?, networks.head? with
      | some f, some n => some (f, n.name)
      | _, _ => none
    ⟨none, none, none, [], [], firewallNodes, clusters, finalEdge⟩

/-- `create_networking_diagram` from `diagram_generator.py` (the `except`
fallback is unreachable in this pure model). -/
def create_networking_diagram (data : ParsedData) (provider : String) : NetDiagram :=
  let res := fun c => (data.resources c).getD []
  if provider = "aws" then awsNetworkDiagram res
  else if provider = "google" then gcpNetworkDiagram res
  else ⟨some ("Diagrams for " ++ pyUpper provider ++ " not implemented."),
    none, none, [], [], [], [], none⟩

/-- `DocxGenerator._generate_summary_points` from `docx_generator.py`:
the seven consolidated counts, in source order, restricted to the positive
ones. -/
def generate_summary_points (resources : String → Option (List Res)) : List (String × Nat) :=
  let g := fun c => ((resources c).getD []).length
  ([("vpcs", g "vpcs" + g "vnets" + g "networks"),
    ("instances", g "instances" + g "vms"),
    ("databases", g "rds" + g "sql_db" + g "sql" + g "dynamodb" + g "cosmosdb"),
    ("containers", g "eks" + g "ecs" + g "aks" + g "gke"),
    ("functions", g "lambda" + g "functions"),
    ("storage", g "s3" + g "storage_accounts" + g "storage_buckets"),
    ("load_balancers",
      g "alb" + g "nlb" + g "app_gateway" + g "load_balancer" + g "load_balancing")]
    : List (String × Nat)).filter (fun p => decide (0 < p.2))

/-- The seven architectural concern names, in source order. -/
def concernNames : List String :=
  ["vpcs", "instances", "databases", "containers", "functions", "storage",
    "load_balancers"]

/-- The categories consolidated into each concern (from the same source
lines). -/
def concernCategories (k : String) : List String :=
  if k = "vpcs" then ["vpcs", "vnets", "networks"]
  else if k = "instances" then ["instances", "vms"]
  else if k = "databases" then ["rds", "sql_db", "sql", "dynamodb", "cosmosdb"]
  else if k = "containers" then ["eks", "ecs", "aks", "gke"]
  else if k = "functions" then ["lambda", "functions"]
  else if k = "storage" then ["s3", "storage_accounts", "storage_buckets"]
  else if k = "load_balancers" then
    ["alb", "nlb", "app_gateway", "load_balancer", "load_balancing"]
  else []

/-- Specification-side count for one concern: the sum of the lengths of the
category lists assigned to that concern (spec section 6). -/
def concernSum (resources : String → Option (List Res)) (k : String) : Nat :=
  ((concernCategories k).map (fun c => ((resources c).getD []).length)).sum

/-! ### Behaviour of the classifier -/

theorem stepRes_apply (rev : String → Option String) (m : String → Option (List Res))
    (r : Res) (c : String) :
    stepRes rev m r c = if matchesCat rev c r then (m c).map (· ++ [r]) else m c := by
  unfold stepRes matchesCat
  cases hrev : rev r.type with
  | none => simp
  | some cat =>
    by_cases he : cat.isEmpty
    · simp [he]
    · by_cases hc : c = cat
      · subst hc; simp [he]
      · simp only [Bool.not_eq_true] at he
        simp [he, hc]
        exact (if_neg (Ne.symm hc)).symm

theorem foldl_stepRes (rev : String → Option String) (rs : List Res) :
    ∀ (m : String → Option (List Res)) (c : String),
      (rs.foldl (stepRes rev) m) c = (m c).map (· ++ rs.filter (matchesCat rev c)) := by
  induction rs with
  | nil =>
    intro m c
    rw [List.foldl_nil, List.filter_nil]
    cases h : m c <;> simp [h]
  | cons r rs ih =>
    intro m c
    rw [List.foldl_cons, ih, stepRes_apply]
    by_cases h : matchesCat rev c r
    · rw [if_pos h, List.filter_cons_of_pos h]
      cases hmc : m c <;> simp [hmc]
    · rw [if_neg h, List.filter_cons_of_neg h]

theorem foldl_parseStep_resources (rev : String → Option String) (files : List TFFile) :
    ∀ acc : ParsedData,
      (files.foldl (parseStep rev) acc).resources =
        ((files.map fileResources).flatten).foldl (stepRes rev) acc.resources := by
  induction files with
  | nil => intro acc; rfl
  | cons f fs ih =>
    intro acc
    rw [List.foldl_cons, ih, List.map_cons, List.flatten_cons, List.foldl_append]
    rfl

theorem foldl_parseStep_vars (rev : String → Option String) (files : List TFFile) :
    ∀ acc : ParsedData,
      (files.foldl (parseStep rev) acc).vars =
        acc.vars ++ (files.map fileVariables).flatten := by
  induction files with
  | nil => intro acc; simp
  | cons f fs ih =>
    intro acc
    rw [List.foldl_cons, ih, List.map_cons, List.flatten_cons]
    simp [parseStep]

theorem foldl_parseStep_mods (rev : String → Option String) (files : List TFFile) :
    ∀ acc : ParsedData,
      (files.foldl (parseStep rev) acc).mods =
        acc.mods ++ (files.map fileModules).flatten := by
  induction files with
  | nil => intro acc; simp
  | cons f fs ih =>
    intro acc
    rw [List.foldl_cons, ih, List.map_cons, List.flatten_cons]
    simp [parseStep]

theorem buildInit_aux (c : String) (pm : List (String × List String)) :
    ∀ acc : String → Option (List Res),
      (pm.foldl
        (fun acc e => e.2.foldl
          (fun a _t => fun x => if x = e.1 then some ([] : List Res) else a x) acc)
        acc) c =
        if pm.any (fun e => !e.2.isEmpty && c = e.1) then some [] else acc c := by
  induction pm with
  | nil => intro acc; simp
  | cons e pm ih =>
    intro acc
    rw [List.foldl_cons, ih]
    have hinner : ∀ (types : List String) (a : String → Option (List Res)),
        (types.foldl (fun a _t => fun x => if x = e.1 then some ([] : List Res) else a x) a) c =
          if !types.isEmpty && c = e.1 then some [] else a c := by
      intro types
      induction types with
      | nil => intro a; simp
      | cons t ts iht =>
        intro a
        rw [List.foldl_cons, iht]
        by_cases hc : c = e.1
        · simp [hc]
        · simp [hc]
    rw [List.any_cons]
    by_cases hrest : pm.any (fun e => !e.2.isEmpty && c = e.1)
    · simp [hrest]
    · simp only [hrest, Bool.or_false, if_neg (by simp [hrest] : ¬(pm.any
        (fun e => !e.2.isEmpty && c = e.1) = true))]
      rw [hinner]
      simp

theorem buildInit_apply (pm : List (String × List String)) (c : String) :
    buildInit pm c = if pm.any (fun e => !e.2.isEmpty && c = e.1) then some [] else none := by
  unfold buildInit
  rw [buildInit_aux]

theorem resources_apply (files : List TFFile) (p : String) (c : String) :
    (parse_terraform_directory files p).resources c =
      (buildInit ((RESOURCE_MAP.lookup p).getD []) c).map
        (· ++ (flattenRaw files).filter
          (matchesCat (buildRev ((RESOURCE_MAP.lookup p).getD [])) c)) := by
  unfold parse_terraform_directory flattenRaw
  rw [foldl_parseStep_resources, foldl_stepRes]

theorem any_cat_iff_mem_fst (pm : List (String × List String)) (c : String)
    (h : ∀ e ∈ pm, e.2.isEmpty = false) :
    (pm.any (fun e => !e.2.isEmpty && c = e.1) = true) ↔ c ∈ pm.map Prod.fst := by
  rw [List.any_eq_true]
  constructor
  · rintro ⟨e, he, hc⟩
    simp only [Bool.and_eq_true, decide_eq_true_eq] at hc
    exact List.mem_map.mpr ⟨e, he, hc.2.symm⟩
  · intro hc
    rcases List.mem_map.mp hc with ⟨e, he, hfst⟩
    refine ⟨e, he, ?_⟩
    simp [h e he, hfst.symm]

theorem awsResourceMap_nonempty_types :
    ∀ e ∈ awsResourceMap, e.2.isEmpty = false := by decide

theorem azurermResourceMap_nonempty_types :
    ∀ e ∈ azurermResourceMap, e.2.isEmpty = false := by decide

theorem googleResourceMap_nonempty_types :
    ∀ e ∈ googleResourceMap, e.2.isEmpty = false := by decide

theorem lookup_aws : RESOURCE_MAP.lookup "aws" = some awsResourceMap := rfl

theorem lookup_azurerm : RESOURCE_MAP.lookup "azurerm" = some azurermResourceMap := rfl

theorem lookup_google : RESOURCE_MAP.lookup "google" = some googleResourceMap := rfl

/-- C2: for every input list of raw resources and every supported provider,
every category of the provider's taxonomy table is a key of the resulting
resources-by-category mapping (and conversely), and the key set is the one
established by the initialisation pass, before any resource is processed
(processing the files never changes it). -/
theorem c2_categories_always_present (files : List TFFile) (p : String)
    (hp : p = "aws" ∨ p = "azurerm" ∨ p = "google") (c : String) :
    (((parse_terraform_directory files p).resources c).isSome
        ↔ c ∈ ((RESOURCE_MAP.lookup p).getD []).map Prod.fst)
    ∧ (((parse_terraform_directory files p).resources c).isSome
        ↔ ((parse_terraform_directory [] p).resources c).isSome) := by
  have key : ∀ fs : List TFFile,
      (((parse_terraform_directory fs p).resources c).isSome
        ↔ c ∈ ((RESOURCE_MAP.lookup p).getD []).map Prod.fst) := by
    intro fs
    rw [resources_apply, buildInit_apply]
    have hne : ∀ e ∈ (RESOURCE_MAP.lookup p).getD [], e.2.isEmpty = false := by
      rcases hp with h | h | h <;> subst h
      · rw [lookup_aws]; exact awsResourceMap_nonempty_types
      · rw [lookup_azurerm]; exact azurermResourceMap_nonempty_types
      · rw [lookup_google]; exact googleResourceMap_nonempty_types
    rw [← any_cat_iff_mem_fst _ c hne]
    by_cases hany : ((RESOURCE_MAP.lookup p).getD []).any (fun e => !e.2.isEmpty && c = e.1)
    · simp [hany]
    · simp [hany]
  exact ⟨key files, (key files).trans (key []).symm⟩

theorem c2_witness :
    ("aws" = "aws" ∨ "aws" = "azurerm" ∨ "aws" = "google")
    ∧ ((((parse_terraform_directory [] "aws").resources "subnets").isSome
          ↔ "subnets" ∈ ((RESOURCE_MAP.lookup "aws").getD []).map Prod.fst)
        ∧ (((parse_terraform_directory [] "aws").resources "subnets").isSome
          ↔ ((parse_terraform_directory [] "aws").resources "subnets").isSome)) :=
  ⟨Or.inl rfl, c2_categories_always_present [] "aws" (Or.inl rfl) "subnets"⟩

/-- C5: classification is deterministic and idempotent (a second run on the
same ordered input is the same run of the same pure function), and
order-preserving: the list stored under any present category is exactly the
input-ordered sublist of raw records whose declared type resolves to that
category. -/
theorem c5_classification_order (files : List TFFile) (p : String) :
    parse_terraform_directory files p = parse_terraform_directory files p
    ∧ ∀ c l, (parse_terraform_directory files p).resources c = some l →
        l = (flattenRaw files).filter
          (matchesCat (buildRev ((RESOURCE_MAP.lookup p).getD [])) c) := by
  refine ⟨rfl, fun c l h => ?_⟩
  rw [resources_apply, buildInit_apply] at h
  by_cases hany : ((RESOURCE_MAP.lookup p).getD []).any (fun e => !e.2.isEmpty && c = e.1)
  · rw [if_pos hany] at h
    simpa using h.symm
  · rw [if_neg hany] at h
    simp at h

/-- A one-resource input used by concrete witnesses: a single file declaring
one `aws_vpc` named `web`. -/
def vpcOnlyFile : TFFile := ⟨[[("aws_vpc", [("web", [])])]], [], []⟩

theorem c5_witness :
    (parse_terraform_directory [vpcOnlyFile] "aws").resources "vpcs" =
      some [⟨"aws_vpc", "web", []⟩]
    ∧ [(⟨"aws_vpc", "web", []⟩ : Res)] =
        (flattenRaw [vpcOnlyFile]).filter
          (matchesCat (buildRev ((RESOURCE_MAP.lookup "aws").getD [])) "vpcs") :=
  ⟨rfl, (c5_classification_order [vpcOnlyFile] "aws").2 "vpcs" [⟨"aws_vpc", "web", []⟩] rfl⟩

/-- A one-variable input used by the C1 counterexample: a single file
declaring one variable `env` and no resources or modules. -/
def varOnlyFile : TFFile := ⟨[], [[("env", ⟨[], none⟩)]], []⟩

/-- C1 counterexample: for the unsupported provider `"ibm"`, classification
of an input that declares a variable returns a NON-empty variable list
(variable extraction does not depend on the provider), refuting the
claim's "empty variable and module lists". -/
theorem c1_counterexample :
    (parse_terraform_directory [varOnlyFile] "ibm").vars ≠ [] := by
  intro h
  have h1 : (parse_terraform_directory [varOnlyFile] "ibm").vars.length = 1 := rfl
  rw [h] at h1
  simp at h1

/-- C1 (amended): for a provider absent from the taxonomy table,
classification returns a well-formed model with zero resource categories,
while the variable and module lists are exactly the records extracted from
the input (hence empty only when the input declares none), and each diagram
builder returns a single placeholder diagram. -/
theorem c1_unsupported_provider (files : List TFFile) (p : String)
    (hp : RESOURCE_MAP.lookup p = none) :
    (∀ c, (parse_terraform_directory files p).resources c = none)
    ∧ (parse_terraform_directory files p).vars = (files.map fileVariables).flatten
    ∧ (parse_terraform_directory files p).mods = (files.map fileModules).flatten
    ∧ create_conceptual_diagram (parse_terraform_directory files p) p =
        ⟨some ("Diagrams for " ++ pyUpper p ++ " not implemented."), [], []⟩
    ∧ create_networking_diagram (parse_terraform_directory files p) p =
        ⟨some ("Diagrams for " ++ pyUpper p ++ " not implemented."),
          none, none, [], [], [], [], none⟩ := by
  have ha : ¬(p = "aws") := fun h => by rw [h, lookup_aws] at hp; exact Option.noConfusion hp
  have hg : ¬(p = "google") := fun h => by
    rw [h, lookup_google] at hp; exact Option.noConfusion hp
  refine ⟨fun c => ?_, ?_, ?_, ?_, ?_⟩
  · rw [resources_apply, hp]
    simp [buildInit_apply]
  · unfold parse_terraform_directory
    rw [foldl_parseStep_vars]
    simp
  · unfold parse_terraform_directory
    rw [foldl_parseStep_mods]
    simp
  · simp [create_conceptual_diagram, ha, hg]
  · simp [create_networking_diagram, ha, hg]

theorem c1_witness :
    RESOURCE_MAP.lookup "ibm" = none
    ∧ (parse_terraform_directory [varOnlyFile] "ibm").resources "vpcs" = none
    ∧ (parse_terraform_directory [varOnlyFile] "ibm").vars =
        ([varOnlyFile].map fileVariables).flatten
    ∧ create_conceptual_diagram (parse_terraform_directory [varOnlyFile] "ibm") "ibm" =
        ⟨some ("Diagrams for " ++ pyUpper "ibm" ++ " not implemented."), [], []⟩ :=
  ⟨rfl,
    (c1_unsupported_provider [varOnlyFile] "ibm" rfl).1 "vpcs",
    (c1_unsupported_provider [varOnlyFile] "ibm" rfl).2.1,
    (c1_unsupported_provider [varOnlyFile] "ibm" rfl).2.2.2.1⟩

/-! ### Summary points -/

/-- C4 counterexample: on a model with no resources the summary mapping is
empty, so its key set is not the fixed seven-name concern set. -/
theorem c4_counterexample :
    (generate_summary_points (fun _ => none)).map Prod.fst ≠
      ["vpcs", "instances", "databases", "containers", "functions", "storage",
        "load_balancers"] := by decide

/-- C4 (amended): the summary mapping keeps, in the fixed source order,
exactly those of the seven concern names whose total is positive, and each
kept value equals the sum of the lengths of the category lists assigned to
that concern; concerns whose total is zero are omitted. -/
theorem c4_summary_points (resources : String → Option (List Res)) :
    generate_summary_points resources =
      (concernNames.map (fun k => (k, concernSum resources k))).filter
        (fun p => decide (0 < p.2)) := by
  unfold generate_summary_points
  simp [concernNames, concernSum, concernCategories, Nat.add_assoc]

/-! ### AWS networking topology -/

theorem buildVpc_publicSubnets (subnets rts nacls instances nats : List Res)
    (vpcName : String) :
    (buildVpc subnets rts nacls instances nats vpcName).publicSubnets =
      ((subnets.filter (fun s => pyIn vpcName (cfgStr s "vpc_id"))).filter
        (fun s => pyIn "public" (pyLower s.name))).map
          (mkPublicSubnetCluster instances nats) := rfl

theorem buildVpc_privateSubnets (subnets rts nacls instances nats : List Res)
    (vpcName : String) :
    (buildVpc subnets rts nacls instances nats vpcName).privateSubnets =
      ((subnets.filter (fun s => pyIn vpcName (cfgStr s "vpc_id"))).filter
        (fun s => pyIn "private" (pyLower s.name))).map
          (mkPrivateSubnetCluster instances) := rfl

theorem mem_publicSubnets_iff (subnets rts nacls instances nats : List Res)
    (vpcName : String) (s : Res) (hs : s ∈ subnets)
    (hmatch : pyIn vpcName (cfgStr s "vpc_id") = true) :
    mkPublicSubnetCluster instances nats s ∈
      (buildVpc subnets rts nacls instances nats vpcName).publicSubnets
    ↔ pyIn "public" (pyLower s.name) = true := by
  rw [buildVpc_publicSubnets]
  constructor
  · intro hmem
    rcases List.mem_map.mp hmem with ⟨t, ht, hmk⟩
    have hname : t.name = s.name := congrArg SubnetCluster.name hmk
    have hpub := (List.mem_filter.mp ht).2
    rwa [hname] at hpub
  · intro hpub
    exact List.mem_map.mpr
      ⟨s, List.mem_filter.mpr ⟨List.mem_filter.mpr ⟨hs, hmatch⟩, hpub⟩, rfl⟩

theorem mem_privateSubnets_iff (subnets rts nacls instances nats : List Res)
    (vpcName : String) (s : Res) (hs : s ∈ subnets)
    (hmatch : pyIn vpcName (cfgStr s "vpc_id") = true) :
    mkPrivateSubnetCluster instances s ∈
      (buildVpc subnets rts nacls instances nats vpcName).privateSubnets
    ↔ pyIn "private" (pyLower s.name) = true := by
  rw [buildVpc_privateSubnets]
  constructor
  · intro hmem
    rcases List.mem_map.mp hmem with ⟨t, ht, hmk⟩
    have hname : t.name = s.name := congrArg SubnetCluster.name hmk
    have hpriv := (List.mem_filter.mp ht).2
    rwa [hname] at hpriv
  · intro hpriv
    exact List.mem_map.mpr
      ⟨s, List.mem_filter.mpr ⟨List.mem_filter.mpr ⟨hs, hmatch⟩, hpriv⟩, rfl⟩

/-- C6: within a network cluster, a subnet of that network is rendered in
the public tier exactly when its lower-cased name contains `"public"`, and
in the private tier exactly when its lower-cased name contains
`"private"`; a subnet whose name contains neither is rendered in neither
tier. -/
theorem c6_tier_classification (subnets rts nacls instances nats : List Res)
    (vpcName : String) (s : Res) (hs : s ∈ subnets)
    (hmatch : pyIn vpcName (cfgStr s "vpc_id") = true) :
    (mkPublicSubnetCluster instances nats s ∈
        (buildVpc subnets rts nacls instances nats vpcName).publicSubnets
      ↔ pyIn "public" (pyLower s.name) = true)
    ∧ (mkPrivateSubnetCluster instances s ∈
        (buildVpc subnets rts nacls instances nats vpcName).privateSubnets
      ↔ pyIn "private" (pyLower s.name) = true) :=
  ⟨mem_publicSubnets_iff subnets rts nacls instances nats vpcName s hs hmatch,
    mem_privateSubnets_iff subnets rts nacls instances nats vpcName s hs hmatch⟩

/-- The subnet resources used by the tier-classification witnesses. -/
def subnetPublicA : Res := ⟨"aws_subnet", "public-a", [("vpc_id", [CVal.str "app-vpc-id"])]⟩

theorem c6_witness :
    subnetPublicA ∈ [subnetPublicA]
    ∧ pyIn "app-vpc" (cfgStr subnetPublicA "vpc_id") = true
    ∧ ((mkPublicSubnetCluster [] [] subnetPublicA ∈
          (buildVpc [subnetPublicA] [] [] [] [] "app-vpc").publicSubnets
        ↔ pyIn "public" (pyLower subnetPublicA.name) = true)
      ∧ (mkPrivateSubnetCluster [] subnetPublicA ∈
          (buildVpc [subnetPublicA] [] [] [] [] "app-vpc").privateSubnets
        ↔ pyIn "private" (pyLower subnetPublicA.name) = true)) :=
  ⟨List.mem_singleton.mpr rfl, by decide,
    c6_tier_classification [subnetPublicA] [] [] [] [] "app-vpc" subnetPublicA
      (List.mem_singleton.mpr rfl) (by decide)⟩

/-- C10: the two tier predicates are independent substring checks, so a
subnet of the network whose lower-cased name contains both `"public"` and
`"private"` gets a subnet cluster in the public tier and another in the
private tier of the same network cluster. -/
theorem c10_both_tiers (subnets rts nacls instances nats : List Res)
    (vpcName : String) (s : Res) (hs : s ∈ subnets)
    (hmatch : pyIn vpcName (cfgStr s "vpc_id") = true)
    (hpub : pyIn "public" (pyLower s.name) = true)
    (hpriv : pyIn "private" (pyLower s.name) = true) :
    mkPublicSubnetCluster instances nats s ∈
      (buildVpc subnets rts nacls instances nats vpcName).publicSubnets
    ∧ mkPrivateSubnetCluster instances s ∈
      (buildVpc subnets rts nacls instances nats vpcName).privateSubnets :=
  ⟨(mem_publicSubnets_iff subnets rts nacls instances nats vpcName s hs hmatch).mpr hpub,
    (mem_privateSubnets_iff subnets rts nacls instances nats vpcName s hs hmatch).mpr hpriv⟩

/-- The dual-tier subnet resource used by the C10 witness. -/
def subnetPublicPrivate : Res :=
  ⟨"aws_subnet", "public-private-1", [("vpc_id", [CVal.str "app-vpc-id"])]⟩

theorem c10_witness :
    subnetPublicPrivate ∈ [subnetPublicPrivate]
    ∧ pyIn "app-vpc" (cfgStr subnetPublicPrivate "vpc_id") = true
    ∧ pyIn "public" (pyLower subnetPublicPrivate.name) = true
    ∧ pyIn "private" (pyLower subnetPublicPrivate.name) = true
    ∧ mkPublicSubnetCluster [] [] subnetPublicPrivate ∈
        (buildVpc [subnetPublicPrivate] [] [] [] [] "app-vpc").publicSubnets
    ∧ mkPrivateSubnetCluster [] subnetPublicPrivate ∈
        (buildVpc [subnetPublicPrivate] [] [] [] [] "app-vpc").privateSubnets := by
  refine ⟨List.mem_singleton.mpr rfl, by decide, by decide, by decide, ?_, ?_⟩
  · exact (c10_both_tiers [subnetPublicPrivate] [] [] [] [] "app-vpc" subnetPublicPrivate
      (List.mem_singleton.mpr rfl) (by decide) (by decide) (by decide)).1
  · exact (c10_both_tiers [subnetPublicPrivate] [] [] [] [] "app-vpc" subnetPublicPrivate
      (List.mem_singleton.mpr rfl) (by decide) (by decide) (by decide)).2

theorem find_first_eq {α : Type} (p : α → Bool) (l₁ : List α) (a : α) (l₂ : List α)
    (h₁ : ∀ x ∈ l₁, p x = false) (h₂ : p a = true) :
    (l₁ ++ a :: l₂).find? p = some a := by
  induction l₁ with
  | nil => simp [List.find?_cons, h₂]
  | cons x xs ih =>
    have hx := h₁ x (List.mem_cons_self x xs)
    rw [List.cons_append, List.find?_cons, hx]
    exact ih (fun y hy => h₁ y (List.mem_cons_of_mem x hy))

/-- C7: per network, the rendered public route-table node is the first
route table of that network whose lower-cased name contains `"public"`
(an `Option`, hence at most one node), independently of any further
matching route tables, and symmetrically for `"private"`. -/
theorem c7_route_table_pairing (subnets rts nacls instances nats : List Res)
    (vpcName : String) :
    ((buildVpc subnets rts nacls instances nats vpcName).publicRt =
        ((rts.filter (fun rt => pyIn vpcName (cfgStr rt "vpc_id"))).find?
          (fun rt => pyIn "public" (pyLower rt.name))).map Res.name)
    ∧ (∀ l₁ rt l₂,
        rts.filter (fun rt => pyIn vpcName (cfgStr rt "vpc_id")) = l₁ ++ rt :: l₂ →
        pyIn "public" (pyLower rt.name) = true →
        (∀ r ∈ l₁, pyIn "public" (pyLower r.name) = false) →
        (buildVpc subnets rts nacls instances nats vpcName).publicRt = some rt.name)
    ∧ ((buildVpc subnets rts nacls instances nats vpcName).privateRt =
        ((rts.filter (fun rt => pyIn vpcName (cfgStr rt "vpc_id"))).find?
          (fun rt => pyIn "private" (pyLower rt.name))).map Res.name)
    ∧ (∀ l₁ rt l₂,
        rts.filter (fun rt => pyIn vpcName (cfgStr rt "vpc_id")) = l₁ ++ rt :: l₂ →
        pyIn "private" (pyLower rt.name) = true →
        (∀ r ∈ l₁, pyIn "private" (pyLower r.name) = false) →
        (buildVpc subnets rts nacls instances nats vpcName).privateRt = some rt.name) := by
  refine ⟨rfl, fun l₁ rt l₂ hsplit hrt hpre => ?_, rfl, fun l₁ rt l₂ hsplit hrt hpre => ?_⟩
  · show ((rts.filter (fun rt => pyIn vpcName (cfgStr rt "vpc_id"))).find?
      (fun rt => pyIn "public" (pyLower rt.name))).map Res.name = some rt.name
    rw [hsplit, find_first_eq _ l₁ rt l₂ hpre hrt]
    rfl
  · show ((rts.filter (fun rt => pyIn vpcName (cfgStr rt "vpc_id"))).find?
      (fun rt => pyIn "private" (pyLower rt.name))).map Res.name = some rt.name
    rw [hsplit, find_first_eq _ l₁ rt l₂ hpre hrt]
    rfl

/-- The two public route tables of the C7 witness (both match the network;
only the first is rendered). -/
def rtPublicA : Res := ⟨"aws_route_table", "rt-public-a", [("vpc_id", [CVal.str "app-vpc-id"])]⟩

/-- Second matching public route table of the C7 witness. -/
def rtPublicB : Res := ⟨"aws_route_table", "rt-public-b", [("vpc_id", [CVal.str "app-vpc-id"])]⟩

theorem c7_witness :
    [rtPublicA, rtPublicB].filter (fun rt => pyIn "app-vpc" (cfgStr rt "vpc_id")) =
      [] ++ rtPublicA :: [rtPublicB]
    ∧ pyIn "public" (pyLower rtPublicA.name) = true
    ∧ (buildVpc [] [rtPublicA, rtPublicB] [] [] [] "app-vpc").publicRt =
        some rtPublicA.name :=
  ⟨rfl, by decide,
    (c7_route_table_pairing [] [rtPublicA, rtPublicB] [] [] [] "app-vpc").2.1
      [] rtPublicA [rtPublicB] rfl (by decide)
      (fun r hr => absurd hr (List.not_mem_nil r))⟩

/-- The classified model of the C3 counterexample: networks `web` and
`web-prod`, and one public subnet whose network reference
`"web-prod-subnet"` contains both network names as substrings. -/
def c3Res : String → List Res := fun c =>
  if c = "vpcs" then [⟨"aws_vpc", "web", []⟩, ⟨"aws_vpc", "web-prod", []⟩]
  else if c = "subnets" then
    [⟨"aws_subnet", "public-1", [("vpc_id", [CVal.str "web-prod-subnet"])]⟩]
  else []

/-- C3 counterexample: with two matching networks the subnet cluster is
rendered inside BOTH network clusters (two clusters contain it, not
exactly one), refuting the first-match-only attachment. -/
theorem c3_counterexample :
    ((awsNetworkDiagram c3Res).vpcClusters.map
        (fun vc => (vc.name, vc.publicSubnets.map SubnetCluster.name))) =
      [("web", ["public-1"]), ("web-prod", ["public-1"])]
    ∧ ((awsNetworkDiagram c3Res).vpcClusters.filter
        (fun vc => vc.publicSubnets.any (fun sc => sc.name = "public-1"))).length ≠ 1 := by
  constructor
  · decide
  · decide

/-- C3 (amended): the builder attaches a subnet to EVERY network whose name
is a substring of the subnet's network-reference field: each network
cluster independently renders, per tier, exactly the subnets whose
reference matches that network, so a subnet matching several networks
appears in each of their clusters, not only in the first match. -/
theorem c3_attach_all_matches (res : String → List Res) (h : res "vpcs" ≠ []) :
    (awsNetworkDiagram res).vpcClusters.map
      (fun vc => (vc.name, vc.publicSubnets, vc.privateSubnets)) =
    (res "vpcs").map (fun v =>
      (v.name,
        (((res "subnets").filter (fun s => pyIn v.name (cfgStr s "vpc_id"))).filter
          (fun s => pyIn "public" (pyLower s.name))).map
            (mkPublicSubnetCluster (res "instances") (res "nat_gateways")),
        (((res "subnets").filter (fun s => pyIn v.name (cfgStr s "vpc_id"))).filter
          (fun s => pyIn "private" (pyLower s.name))).map
            (mkPrivateSubnetCluster (res "instances")))) := by
  unfold awsNetworkDiagram
  rw [if_neg (by simpa [List.isEmpty_iff] using h)]
  rw [List.map_map]
  rfl

theorem c3_witness :
    c3Res "vpcs" ≠ []
    ∧ (awsNetworkDiagram c3Res).vpcClusters.map
        (fun vc => (vc.name, vc.publicSubnets, vc.privateSubnets)) =
      (c3Res "vpcs").map (fun v =>
        (v.name,
          (((c3Res "subnets").filter (fun s => pyIn v.name (cfgStr s "vpc_id"))).filter
            (fun s => pyIn "public" (pyLower s.name))).map
              (mkPublicSubnetCluster (c3Res "instances") (c3Res "nat_gateways")),
          (((c3Res "subnets").filter (fun s => pyIn v.name (cfgStr s "vpc_id"))).filter
            (fun s => pyIn "private" (pyLower s.name))).map
              (mkPrivateSubnetCluster (c3Res "instances")))) :=
  ⟨List.cons_ne_nil _ _, c3_attach_all_matches c3Res (List.cons_ne_nil _ _)⟩

theorem mem_clusterEdges_igw (ig : Option String) (vc : VpcClusterM)
    (e : NetNode × NetNode) (he : e ∈ clusterEdges ig vc) (n : String)
    (hn : e.1 = NetNode.igw n ∨ e.2 = NetNode.igw n) : ig = some n := by
  unfold clusterEdges at he
  cases hg : ig with
  | none =>
    rw [hg] at he
    cases hpr : vc.privateRt <;> cases hpn : vc.natNode <;>
      simp [hpr, hpn] at he <;>
      first
      | exact absurd he trivial
      | (subst he; rcases hn with h1 | h1 <;> exact NetNode.noConfusion h1)
  | some g =>
    rw [hg] at he
    cases hpub : vc.publicRt <;> cases hpr : vc.privateRt <;> cases hpn : vc.natNode <;>
      simp [hpub, hpr, hpn] at he <;>
      rcases he with he | he | he <;>
      try subst he
    all_goals
      rcases hn with h1 | h1 <;>
        first
        | exact NetNode.noConfusion h1
        | (rw [NetNode.igw.injEq] at h1; rw [h1])

/-- C9: in the AWS network diagram, the internet-gateway node is the single
optional node built from the FIRST `internet_gateways` entry, and every
structural edge touching an internet-gateway node (in particular the
internet-gateway to public-route-table edge of every network cluster) uses
exactly that node's name. -/
theorem c9_single_igw (res : String → List Res) (h : res "vpcs" ≠ []) :
    (awsNetworkDiagram res).igwNode = (res "internet_gateways").head?.map Res.name
    ∧ ∀ e ∈ (awsNetworkDiagram res).netEdges, ∀ n : String,
        (e.1 = NetNode.igw n ∨ e.2 = NetNode.igw n) →
        (res "internet_gateways").head?.map Res.name = some n := by
  unfold awsNetworkDiagram
  rw [if_neg (by simpa [List.isEmpty_iff] using h)]
  refine ⟨rfl, ?_⟩
  intro e he n hn
  rcases List.mem_flatten.mp he with ⟨l, hl, hel⟩
  rcases List.mem_map.mp hl with ⟨vc, hvc, rfl⟩
  exact mem_clusterEdges_igw _ vc e hel n hn

/-- The classified model of the C9 witness: one network, one public route
table of that network, and two declared internet gateways. -/
def c9Res : String → List Res := fun c =>
  if c = "vpcs" then [⟨"aws_vpc", "app-vpc", []⟩]
  else if c = "route_tables" then
    [⟨"aws_route_table", "rt-public", [("vpc_id", [CVal.str "app-vpc-id"])]⟩]
  else if c = "internet_gateways" then
    [⟨"aws_internet_gateway", "igw-first", []⟩, ⟨"aws_internet_gateway", "igw-second", []⟩]
  else []

theorem c9_witness :
    c9Res "vpcs" ≠ []
    ∧ (awsNetworkDiagram c9Res).igwNode = (c9Res "internet_gateways").head?.map Res.name
    ∧ ∀ e ∈ (awsNetworkDiagram c9Res).netEdges, ∀ n : String,
        (e.1 = NetNode.igw n ∨ e.2 = NetNode.igw n) →
        (c9Res "internet_gateways").head?.map Res.name = some n :=
  ⟨List.cons_ne_nil _ _,
    (c9_single_igw c9Res (List.cons_ne_nil _ _)).1,
    (c9_single_igw c9Res (List.cons_ne_nil _ _)).2⟩

/-! ### Conceptual edge inference -/

/-- Whether an edge runs from a Compute node (instances or EKS) to a
Database node (RDS, DynamoDB or ElastiCache). -/
def isCompDb (e : NodeRef × NodeRef) : Bool :=
  (e.1.group = "instances" || e.1.group = "eks") &&
    (e.2.group = "rds" || e.2.group = "dynamodb" || e.2.group = "elasticache")

/-- Adding one resource at the end of one category list of a model. -/
def appendRes (res : String → List Res) (c : String) (x : Res) : String → List Res :=
  fun k => if k = c then res k ++ [x] else res k

theorem refs_append_one (g : String) (n : Nat) :
    refs g (n + 1) = refs g n ++ [⟨g, n⟩] := by
  simp [refs, List.range_succ]

theorem mem_refs {x : NodeRef} {g : String} {n : Nat} :
    x ∈ refs g n ↔ x.group = g ∧ x.idx < n := by
  cases x with
  | mk xg xi =>
    simp only [refs, List.mem_map, List.mem_range, NodeRef.mk.injEq]
    constructor
    · rintro ⟨i, hi, hg, hidx⟩
      exact ⟨hg.symm, hidx ▸ hi⟩
    · rintro ⟨hg, hi⟩
      exact ⟨xi, hi, hg.symm, rfl⟩

theorem snd_mem_of_mem_fanout {s : Option NodeRef} {ts : List NodeRef}
    {e : NodeRef × NodeRef} (he : e ∈ fanout s ts) : e.2 ∈ ts := by
  cases s with
  | none => exact absurd he (List.not_mem_nil e)
  | some s0 =>
    rcases List.mem_map.mp he with ⟨t, ht, rfl⟩
    exact ht

theorem fst_of_mem_fanout {s : Option NodeRef} {ts : List NodeRef}
    {e : NodeRef × NodeRef} (he : e ∈ fanout s ts) : s = some e.1 := by
  cases s with
  | none => exact absurd he (List.not_mem_nil e)
  | some s0 =>
    rcases List.mem_map.mp he with ⟨t, ht, rfl⟩
    rfl

theorem head_refs_group {g : String} {n : Nat} {x : NodeRef}
    (h : (refs g n).head? = some x) : x.group = g := by
  cases n with
  | zero => simp [refs] at h
  | succ m =>
    rw [refs, List.range_succ_eq_map] at h
    simp at h
    rw [← h]

theorem pre_target_cases (res : String → List Res) (e : NodeRef × NodeRef)
    (he : e ∈ awsPreEdges res) :
    e.2.group = "cloudfront" ∨ e.2.group = "lb" ∨ e.2.group = "s3" ∨
    e.2.group = "instances" ∨ e.2.group = "eks" ∨ e.2.group = "lambda" := by
  unfold awsPreEdges awsLambdaRefs at he
  simp only [List.mem_append, or_assoc] at he
  rcases he with he | he | he | he | he | he | he | he
  · rcases h53 : (refs "route53" (res "route53").length).head? with _ | r <;> rw [h53] at he
    · exact absurd he (List.not_mem_nil e)
    · split_ifs at he with h1 h2
      · rcases List.mem_map.mp he with ⟨t, ht, rfl⟩
        exact Or.inl (mem_refs.mp ht).1
      · rcases List.mem_map.mp he with ⟨t, ht, rfl⟩
        exact Or.inr (Or.inl (mem_refs.mp ht).1)
      · exact absurd he (List.not_mem_nil e)
  all_goals have hgrp := (mem_refs.mp (snd_mem_of_mem_fanout he)).1
  all_goals tauto

theorem mid_target_cases (res : String → List Res) (e : NodeRef × NodeRef)
    (he : e ∈ awsMidEdges res) :
    e.2.group = "s3" ∨ e.2.group = "efs" := by
  unfold awsMidEdges at he
  rcases List.mem_append.mp he with he | he
  · exact Or.inl (mem_refs.mp (snd_mem_of_mem_fanout he)).1
  · exact Or.inr (mem_refs.mp (snd_mem_of_mem_fanout he)).1

theorem mem_dbRefs_cases {res : String → List Res} {x : NodeRef}
    (h : x ∈ awsDbRefs res) :
    (x.group = "rds" ∧ x.idx < (res "rds").length) ∨
    (x.group = "dynamodb" ∧ x.idx < (res "dynamodb").length) ∨
    (x.group = "elasticache" ∧ x.idx < (res "elasticache").length) := by
  unfold awsDbRefs at h
  simp only [List.mem_append, or_assoc] at h
  rcases h with h | h | h
  · exact Or.inl (mem_refs.mp h)
  · exact Or.inr (Or.inl (mem_refs.mp h))
  · exact Or.inr (Or.inr (mem_refs.mp h))

theorem conceptual_target_cases (res : String → List Res) (e : NodeRef × NodeRef)
    (he : e ∈ awsConceptualEdges res) :
    e.2.group = "cloudfront" ∨ e.2.group = "lb" ∨ e.2.group = "s3" ∨
    e.2.group = "instances" ∨ e.2.group = "eks" ∨ e.2.group = "lambda" ∨
    e.2.group = "efs" ∨ e.2 ∈ awsDbRefs res := by
  unfold awsConceptualEdges at he
  simp only [List.mem_append, or_assoc] at he
  rcases he with he | he | he | he
  · rcases pre_target_cases res e he with h | h | h | h | h | h <;> tauto
  · have hdb := snd_mem_of_mem_fanout he
    tauto
  · rcases mid_target_cases res e he with h | h <;> tauto
  · have hdb := snd_mem_of_mem_fanout he
    tauto

theorem new_target_fresh (res : String → List Res) (e : NodeRef × NodeRef)
    (he : e ∈ awsConceptualEdges res) (c : String)
    (hc : c = "rds" ∨ c = "dynamodb" ∨ c = "elasticache") :
    e.2 ≠ (⟨c, (res c).length⟩ : NodeRef) := by
  intro hEq
  rcases conceptual_target_cases res e he with h | h | h | h | h | h | h | h
  all_goals try (rw [hEq] at h; rcases hc with rfl | rfl | rfl <;> simp at h)
  rcases mem_dbRefs_cases h with ⟨hg, hi⟩ | ⟨hg, hi⟩ | ⟨hg, hi⟩ <;>
    rw [hEq] at hg hi <;> rcases hc with rfl | rfl | rfl <;>
    simp at hg hi

theorem count_fanout_insert_ne (s : Option NodeRef) (A B : List NodeRef) (nw : NodeRef)
    (e : NodeRef × NodeRef) (hne : e.2 ≠ nw) :
    (fanout s (A ++ nw :: B)).count e = (fanout s (A ++ B)).count e := by
  cases s with
  | none => rfl
  | some s0 =>
    simp only [fanout, List.map_append, List.map_cons, List.count_append]
    rw [List.count_cons]
    have hb : ((s0, nw) == e) = false := by
      rw [beq_eq_false_iff_ne]
      intro h
      exact hne ((congrArg Prod.snd h).symm)
    rw [hb]
    simp

theorem pre_stable (res : String → List Res) (x : Res) (c : String)
    (hc : c = "rds" ∨ c = "dynamodb" ∨ c = "elasticache") :
    awsPreEdges (appendRes res c x) = awsPreEdges res := by
  rcases hc with rfl | rfl | rfl <;> rfl

theorem mid_stable (res : String → List Res) (x : Res) (c : String)
    (hc : c = "rds" ∨ c = "dynamodb" ∨ c = "elasticache") :
    awsMidEdges (appendRes res c x) = awsMidEdges res := by
  rcases hc with rfl | rfl | rfl <;> rfl

theorem compute_stable (res : String → List Res) (x : Res) (c : String)
    (hc : c = "rds" ∨ c = "dynamodb" ∨ c = "elasticache") :
    awsComputeRefs (appendRes res c x) = awsComputeRefs res := by
  rcases hc with rfl | rfl | rfl <;> rfl

theorem lambda_stable (res : String → List Res) (x : Res) (c : String)
    (hc : c = "rds" ∨ c = "dynamodb" ∨ c = "elasticache") :
    awsLambdaRefs (appendRes res c x) = awsLambdaRefs res := by
  rcases hc with rfl | rfl | rfl <;> rfl

theorem dbRefs_insert (res : String → List Res) (x : Res) (c : String)
    (hc : c = "rds" ∨ c = "dynamodb" ∨ c = "elasticache") :
    ∃ A B, awsDbRefs res = A ++ B ∧
      awsDbRefs (appendRes res c x) = A ++ (⟨c, (res c).length⟩ : NodeRef) :: B := by
  rcases hc with rfl | rfl | rfl
  · refine ⟨refs "rds" (res "rds").length,
      refs "dynamodb" (res "dynamodb").length ++ refs "elasticache" (res "elasticache").length,
      by simp [awsDbRefs], ?_⟩
    show refs "rds" ((res "rds" ++ [x]).length) ++ refs "dynamodb" (res "dynamodb").length ++
        refs "elasticache" (res "elasticache").length = _
    rw [show (res "rds" ++ [x]).length = (res "rds").length + 1 by simp, refs_append_one]
    simp [List.append_assoc]
  · refine ⟨refs "rds" (res "rds").length ++ refs "dynamodb" (res "dynamodb").length,
      refs "elasticache" (res "elasticache").length,
      by simp [awsDbRefs], ?_⟩
    show refs "rds" (res "rds").length ++ refs "dynamodb" ((res "dynamodb" ++ [x]).length) ++
        refs "elasticache" (res "elasticache").length = _
    rw [show (res "dynamodb" ++ [x]).length = (res "dynamodb").length + 1 by simp,
      refs_append_one]
    simp [List.append_assoc]
  · refine ⟨refs "rds" (res "rds").length ++ refs "dynamodb" (res "dynamodb").length ++
      refs "elasticache" (res "elasticache").length, [],
      by simp [awsDbRefs], ?_⟩
    show refs "rds" (res "rds").length ++ refs "dynamodb" (res "dynamodb").length ++
        refs "elasticache" ((res "elasticache" ++ [x]).length) = _
    rw [show (res "elasticache" ++ [x]).length = (res "elasticache").length + 1 by simp,
      refs_append_one]
    simp [List.append_assoc]

theorem conceptual_count_stable (res : String → List Res) (x : Res) (c : String)
    (hc : c = "rds" ∨ c = "dynamodb" ∨ c = "elasticache") (e : NodeRef × NodeRef)
    (hne2 : e.2 ≠ (⟨c, (res c).length⟩ : NodeRef)) :
    (awsConceptualEdges (appendRes res c x)).count e = (awsConceptualEdges res).count e := by
  obtain ⟨A, B, hAB, hAB2⟩ := dbRefs_insert res x c hc
  unfold awsConceptualEdges
  rw [pre_stable res x c hc, mid_stable res x c hc, compute_stable res x c hc,
    lambda_stable res x c hc, hAB2, hAB]
  simp only [List.count_append]
  rw [count_fanout_insert_ne _ A B _ e hne2, count_fanout_insert_ne _ A B _ e hne2]

theorem filter_compdb_pre (res : String → List Res) :
    (awsPreEdges res).filter isCompDb = [] := by
  rw [List.filter_eq_nil_iff]
  intro e he
  rcases pre_target_cases res e he with h | h | h | h | h | h <;> simp [isCompDb, h]

theorem filter_compdb_mid (res : String → List Res) :
    (awsMidEdges res).filter isCompDb = [] := by
  rw [List.filter_eq_nil_iff]
  intro e he
  rcases mid_target_cases res e he with h | h <;> simp [isCompDb, h]

theorem filter_compdb_lambda_fan (res : String → List Res) (ts : List NodeRef) :
    (fanout (awsLambdaRefs res).head? ts).filter isCompDb = [] := by
  rw [List.filter_eq_nil_iff]
  intro e he
  have hf := fst_of_mem_fanout he
  have hg : e.1.group = "lambda" :=
    head_refs_group (show (refs "lambda" (res "lambda").length).head? = some e.1 from hf)
  simp [isCompDb, hg]

theorem filter_compdb_compute_fan (res : String → List Res) :
    (fanout (awsComputeRefs res).head? (awsDbRefs res)).filter isCompDb =
      fanout (awsComputeRefs res).head? (awsDbRefs res) := by
  rw [List.filter_eq_self]
  intro e he
  have hf := fst_of_mem_fanout he
  have hmem : e.1 ∈ awsComputeRefs res := by
    cases hcl : awsComputeRefs res with
    | nil => rw [hcl] at hf; simp at hf
    | cons a l =>
      rw [hcl] at hf
      simp at hf
      rw [← hf]
      exact List.mem_cons_self a l
  have hsrc : e.1.group = "instances" ∨ e.1.group = "eks" := by
    unfold awsComputeRefs at hmem
    rcases List.mem_append.mp hmem with h | h
    · exact Or.inl (mem_refs.mp h).1
    · exact Or.inr (mem_refs.mp h).1
  have htgt := mem_dbRefs_cases (snd_mem_of_mem_fanout he)
  rcases hsrc with h1 | h1 <;> rcases htgt with ⟨h2, -⟩ | ⟨h2, -⟩ | ⟨h2, -⟩ <;>
    simp [isCompDb, h1, h2]

theorem filter_compdb_edges (res : String → List Res) (s0 : NodeRef)
    (hs0 : (awsComputeRefs res).head? = some s0) :
    (awsConceptualEdges res).filter isCompDb = (awsDbRefs res).map (fun t => (s0, t)) := by
  unfold awsConceptualEdges
  simp only [List.filter_append]
  rw [filter_compdb_pre, filter_compdb_mid, filter_compdb_lambda_fan,
    filter_compdb_compute_fan, hs0]
  simp [fanout]

/-- C8: if the model already has at least one Compute resource, appending
one Database-category resource (to any of the three database categories)
leaves the multiplicity of every existing conceptual edge unchanged (no
edge is removed or duplicated) and increases the number of
Compute-to-Database edges by exactly one. -/
theorem c8_edge_monotonicity (res : String → List Res) (x : Res) (c : String)
    (hc : c = "rds" ∨ c = "dynamodb" ∨ c = "elasticache")
    (hcomp : res "instances" ++ res "eks" ≠ []) :
    (∀ e ∈ awsConceptualEdges res,
        (awsConceptualEdges (appendRes res c x)).count e =
          (awsConceptualEdges res).count e)
    ∧ ((awsConceptualEdges (appendRes res c x)).filter isCompDb).length =
        ((awsConceptualEdges res).filter isCompDb).length + 1 := by
  constructor
  · intro e he
    exact conceptual_count_stable res x c hc e (new_target_fresh res e he c hc)
  · have hne : awsComputeRefs res ≠ [] := by
      intro h0
      have hlen := congrArg List.length h0
      simp [awsComputeRefs, refs] at hlen
      exact hcomp (by rw [hlen.1, hlen.2]; rfl)
    obtain ⟨s0, hs0⟩ : ∃ s0, (awsComputeRefs res).head? = some s0 := by
      cases h : awsComputeRefs res with
      | nil => exact absurd h hne
      | cons a l => exact ⟨a, by simp [h]⟩
    have hs0' : (awsComputeRefs (appendRes res c x)).head? = some s0 := by
      rw [compute_stable res x c hc]; exact hs0
    rw [filter_compdb_edges res s0 hs0, filter_compdb_edges (appendRes res c x) s0 hs0']
    obtain ⟨A, B, hAB, hAB2⟩ := dbRefs_insert res x c hc
    rw [hAB2, hAB]
    simp [List.length_append]
    omega

/-- The classified model of the C8 witness: one compute instance and no
database resources. -/
def c8Res : String → List Res := fun c =>
  if c = "instances" then [⟨"aws_instance", "web-server", []⟩] else []

theorem c8_witness :
    ("rds" = "rds" ∨ "rds" = "dynamodb" ∨ "rds" = "elasticache")
    ∧ c8Res "instances" ++ c8Res "eks" ≠ []
    ∧ (∀ e ∈ awsConceptualEdges c8Res,
        (awsConceptualEdges (appendRes c8Res "rds" ⟨"aws_db_instance", "db", []⟩)).count e =
          (awsConceptualEdges c8Res).count e)
    ∧ ((awsConceptualEdges (appendRes c8Res "rds" ⟨"aws_db_instance", "db", []⟩)).filter
          isCompDb).length =
        ((awsConceptualEdges c8Res).filter isCompDb).length + 1 :=
  ⟨Or.inl rfl, List.cons_ne_nil _ _,
    (c8_edge_monotonicity c8Res ⟨"aws_db_instance", "db", []⟩ "rds" (Or.inl rfl)
      (List.cons_ne_nil _ _)).1,
    (c8_edge_monotonicity c8Res ⟨"aws_db_instance", "db", []⟩ "rds" (Or.inl rfl)
      (List.cons_ne_nil _ _)).2⟩
